import Mathlib

/-!
Shallow embedding of src/Logic/Expression.py: a closed hierarchy of
propositional-logic connectives over a scope of operands, where each operand
is a boolean leaf, a nested expression, or (since Python is dynamically
typed) some other plain value, modelled here by an integer.
-/

namespace LogicExpr

/-- A Python value as it flows out of truth-value evaluation: either a Python
bool, or some other non-Expression value, modelled by a Python int. -/
inductive PyVal where
  | pbool (b : Bool)
  | pint (n : Int)
deriving DecidableEq

mutual

/-- The five concrete connective classes of Expression.py, one constructor
per class (Not, Or, And, Conditional, BiConditional), each holding its scope
operands in order: self.a (and self.b for the binary classes). -/
inductive Expr where
  | Not (a : Operand)
  | Or (a b : Operand)
  | And (a b : Operand)
  | Conditional (a b : Operand)
  | BiConditional (a b : Operand)

/-- One operand slot of a scope: a boolean leaf, a nested Expression, or a
plain non-Expression non-bool Python value (modelled as an int), which the
code never rejects. -/
inductive Operand where
  | ofBool (b : Bool)
  | ofInt (n : Int)
  | ofExpr (e : Expr)

end

/-- Python truthiness of a value, as used by not/and/or and if-conditions in
the source: a bool is itself, an int is truthy iff nonzero. -/
def truthy : PyVal → Bool
  | .pbool b => b
  | .pint n => n != 0

mutual

/-- The truth_value property of each connective class, merged into one
exhaustive match over the closed hierarchy.
Not: return not self._is_true(self.a).
Or: if not A and not B: return False else: return True.
And: if A and B: return True else: return False.
Conditional: if not A or B: return True else: return False.
BiConditional: if (A and B) or (not (A or B)): return True else: return False.
Here A and B abbreviate self._is_true(self.a) and self._is_true(self.b), and
each if-condition tests Python truthiness of the resolved values. -/
def truth_value : Expr → PyVal
  | .Not a => .pbool (! truthy (is_true a))
  | .Or a b =>
      if ! truthy (is_true a) && ! truthy (is_true b) then .pbool false
      else .pbool true
  | .And a b =>
      if truthy (is_true a) && truthy (is_true b) then .pbool true
      else .pbool false
  | .Conditional a b =>
      if ! truthy (is_true a) || truthy (is_true b) then .pbool true
      else .pbool false
  | .BiConditional a b =>
      if (truthy (is_true a) && truthy (is_true b))
          || ! (truthy (is_true a) || truthy (is_true b)) then .pbool true
      else .pbool false

/-- Expression._is_true: try to return exp.truth_value; on AttributeError
(the operand has no truth_value capability, i.e. it is not an Expression)
return the operand itself, unchanged. -/
def is_true : Operand → PyVal
  | .ofBool b => .pbool b
  | .ofInt n => .pint n
  | .ofExpr e => truth_value e

end

/-- Or.demorgans_law_or, with a and b the receiver Or instance self.a and
self.b: return Not(And(Not(self.a), Not(self.b))). -/
def demorgans_law_or (a b : Operand) : Expr :=
  .Not (.ofExpr (.And (.ofExpr (.Not a)) (.ofExpr (.Not b))))

/-- And.demorgan_law_and: return Not(Or(Not(self.a), Not(self.b))). -/
def demorgan_law_and (a b : Operand) : Expr :=
  .Not (.ofExpr (.Or (.ofExpr (.Not a)) (.ofExpr (.Not b))))

/-- Conditional.disjunction_convert: return Or(Not(self.a), self.b). -/
def disjunction_convert (a b : Operand) : Expr :=
  .Or (.ofExpr (.Not a)) b

/-- BiConditional.conditional_convert: return
And(Conditional(self.a, self.b), Conditional(self.b, self.a)). -/
def conditional_convert (a b : Operand) : Expr :=
  .And (.ofExpr (.Conditional a b)) (.ofExpr (.Conditional b a))

/-- Not.can_be_double_negated, with a the receiver Not instance self.a:
if isinstance(self.a, Not): return True else: return False. -/
def can_be_double_negated (a : Operand) : Bool :=
  match a with
  | .ofExpr (.Not _) => true
  | _ => false

/-- Not.double_negation, with a the receiver Not instance self.a:
if isinstance(self.a, Not): return self.a.a; otherwise the method falls off
its end and Python implicitly returns None, modelled as Option.none. -/
def double_negation (a : Operand) : Option Operand :=
  match a with
  | .ofExpr (.Not inner) => some inner
  | _ => none

/-- The self.scope tuple stored by Expression.init: one element for the
unary class, two (in order a, b) for the binary classes. -/
def Expr.scope : Expr → List Operand
  | .Not a => [a]
  | .Or a b => [a, b]
  | .And a b => [a, b]
  | .Conditional a b => [a, b]
  | .BiConditional a b => [a, b]

/-- self.__class__.__name__ of each concrete connective class. -/
def Expr.className : Expr → String
  | .Not _ => "Not"
  | .Or _ _ => "Or"
  | .And _ _ => "And"
  | .Conditional _ _ => "Conditional"
  | .BiConditional _ _ => "BiConditional"

mutual

/-- Expression.__str__, specialised to the fixed arity of each class: the
class name, an open paren, the str of each scope element joined by a comma
and a space, and a close paren. The generic loop form of the source is
strJoin below and render_format proves the two agree. -/
def exprStr : Expr → String
  | .Not a => "Not(" ++ operandStr a ++ ")"
  | .Or a b => "Or(" ++ operandStr a ++ ", " ++ operandStr b ++ ")"
  | .And a b => "And(" ++ operandStr a ++ ", " ++ operandStr b ++ ")"
  | .Conditional a b =>
      "Conditional(" ++ operandStr a ++ ", " ++ operandStr b ++ ")"
  | .BiConditional a b =>
      "BiConditional(" ++ operandStr a ++ ", " ++ operandStr b ++ ")"

/-- str(s) for one scope element s: Python bools print as True and False,
ints in decimal, and a nested Expression via its own __str__. -/
def operandStr : Operand → String
  | .ofBool true => "True"
  | .ofBool false => "False"
  | .ofInt n => toString n
  | .ofExpr e => exprStr e

end

/-- The body of the __str__ loop over self.scope: every element but the last
is followed by a comma and a space, the last is not. -/
def strJoin : List Operand → String
  | [] => ""
  | [s] => operandStr s
  | s :: rest => operandStr s ++ ", " ++ strJoin rest

/-- Evaluation trace of Or.truth_value: the pair of the returned value and
the list of operands on which self._is_true is invoked, in order. The
if-condition not A and not B evaluates not A first; Python and
short-circuits, so when not A is False (a resolves truthy) the right operand
b is never resolved. -/
def Or_truth_value_trace (a b : Operand) : PyVal × List Operand :=
  if ! truthy (is_true a) then
    if ! truthy (is_true b) then (.pbool false, [a, b])
    else (.pbool true, [a, b])
  else (.pbool true, [a])

mutual

/-- True iff every leaf of the tree is a boolean (no foreign int leaves). -/
def Expr.boolLeaves : Expr → Bool
  | .Not a => Operand.boolLeaves a
  | .Or a b => Operand.boolLeaves a && Operand.boolLeaves b
  | .And a b => Operand.boolLeaves a && Operand.boolLeaves b
  | .Conditional a b => Operand.boolLeaves a && Operand.boolLeaves b
  | .BiConditional a b => Operand.boolLeaves a && Operand.boolLeaves b

/-- True iff an operand is a boolean leaf or an expression over boolean
leaves. -/
def Operand.boolLeaves : Operand → Bool
  | .ofBool _ => true
  | .ofInt _ => false
  | .ofExpr e => Expr.boolLeaves e

end

theorem truth_value_pbool (e : Expr) : ∃ b : Bool, truth_value e = .pbool b := by
  cases e <;> simp only [truth_value] <;> (try split) <;> exact ⟨_, rfl⟩

theorem is_true_pbool (x : Operand) (h : Operand.boolLeaves x = true) :
    ∃ b : Bool, is_true x = .pbool b := by
  cases x with
  | ofBool b => exact ⟨b, rfl⟩
  | ofInt n => simp [Operand.boolLeaves] at h
  | ofExpr e => exact truth_value_pbool e

/-- C1: over boolean leaves the five connectives compute the standard truth
tables: And gives a and b, Or gives a or b, Conditional gives not a or b,
BiConditional gives a equals b, Not gives not a. -/
theorem truth_tables :
    (∀ a b : Bool, truth_value (.And (.ofBool a) (.ofBool b)) = .pbool (a && b)) ∧
    (∀ a b : Bool, truth_value (.Or (.ofBool a) (.ofBool b)) = .pbool (a || b)) ∧
    (∀ a b : Bool, truth_value (.Conditional (.ofBool a) (.ofBool b)) = .pbool (!a || b)) ∧
    (∀ a b : Bool, truth_value (.BiConditional (.ofBool a) (.ofBool b)) = .pbool (a == b)) ∧
    (∀ a : Bool, truth_value (.Not (.ofBool a)) = .pbool (!a)) := by
  refine ⟨?_, ?_, ?_, ?_, ?_⟩ <;> decide

/-- C2: both De Morgan rewrites are truth-preserving on boolean pairs: an Or
has the same truth value as its demorgans_law_or rewrite, and an And the
same as its demorgan_law_and rewrite. -/
theorem demorgan_truth_preserving :
    (∀ a b : Bool, truth_value (.Or (.ofBool a) (.ofBool b))
        = truth_value (demorgans_law_or (.ofBool a) (.ofBool b))) ∧
    (∀ a b : Bool, truth_value (.And (.ofBool a) (.ofBool b))
        = truth_value (demorgan_law_and (.ofBool a) (.ofBool b))) := by
  refine ⟨?_, ?_⟩ <;> decide

/-- C3: the conversion rewrites are truth-preserving on boolean pairs: a
Conditional has the same truth value as its disjunction_convert rewrite, and
a BiConditional the same as its conditional_convert rewrite. -/
theorem conversion_truth_preserving :
    (∀ a b : Bool, truth_value (.Conditional (.ofBool a) (.ofBool b))
        = truth_value (disjunction_convert (.ofBool a) (.ofBool b))) ∧
    (∀ a b : Bool, truth_value (.BiConditional (.ofBool a) (.ofBool b))
        = truth_value (conditional_convert (.ofBool a) (.ofBool b))) := by
  refine ⟨?_, ?_⟩ <;> decide

/-- C4: for a Not with operand a, can_be_double_negated holds iff a is
itself a Not expression; when it holds, double_negation returns the inner
operand; when it does not, double_negation returns the absent value none
rather than raising an error. -/
theorem double_negation_spec (a : Operand) :
    (can_be_double_negated a = true ↔ ∃ inner, a = .ofExpr (.Not inner)) ∧
    (∀ inner, a = .ofExpr (.Not inner) → double_negation a = some inner) ∧
    (can_be_double_negated a = false → double_negation a = none) := by
  cases a with
  | ofBool b => simp [can_be_double_negated, double_negation]
  | ofInt n => simp [can_be_double_negated, double_negation]
  | ofExpr e => cases e <;> simp [can_be_double_negated, double_negation]

/-- Witness for C4 at the spec examples: Not(Not(True)) double-negates to
True, and Not(True) cannot be double-negated and yields none. -/
theorem double_negation_spec_witness :
    double_negation (.ofExpr (.Not (.ofBool true))) = some (.ofBool true) ∧
    can_be_double_negated (.ofBool true) = false ∧
    double_negation (.ofBool true) = none :=
  ⟨(double_negation_spec (.ofExpr (.Not (.ofBool true)))).2.1 (.ofBool true) rfl,
   rfl,
   (double_negation_spec (.ofBool true)).2.2 rfl⟩

/-- C5 counterexample: resolving the non-boolean, non-Expression operand 5
does not fail with a type error; Expression._is_true returns the operand
itself unchanged. -/
theorem is_true_no_type_error_cex : is_true (.ofInt 5) = .pint 5 := rfl

/-- C5 amended: when an operand has no truth_value capability and is not a
boolean, is_true returns that operand unchanged and raises no error;
evaluation then interprets it by Python truthiness, e.g. Not over an int n
evaluates to the boolean n equals zero. -/
theorem is_true_returns_operand_unchanged (n : Int) :
    is_true (.ofInt n) = .pint n ∧
    truth_value (.Not (.ofInt n)) = .pbool (n == 0) := by
  refine ⟨rfl, ?_⟩
  simp [truth_value, is_true, truthy, bne]

/-- C6 counterexample: evaluating Or(True, False) resolves only the left
operand; the right operand is never passed to self._is_true because the
Python and in the if-condition short-circuits once not A is False. -/
theorem or_short_circuit_cex :
    (Or_truth_value_trace (.ofBool true) (.ofBool false)).2 = [.ofBool true] ∧
    Operand.ofBool false ∉ (Or_truth_value_trace (.ofBool true) (.ofBool false)).2 := by
  refine ⟨rfl, ?_⟩
  simp [Or_truth_value_trace, is_true, truthy]

/-- C6 amended: Or.truth_value always resolves a, agrees with the plain
evaluator, and resolves both operands exactly when a resolves falsey; when a
resolves truthy, the condition short-circuits and b is not resolved. -/
theorem or_resolution_trace (a b : Operand) :
    (Or_truth_value_trace a b).1 = truth_value (.Or a b) ∧
    a ∈ (Or_truth_value_trace a b).2 ∧
    ((Or_truth_value_trace a b).2 = [a, b] ↔ truthy (is_true a) = false) := by
  unfold Or_truth_value_trace
  rcases ha : truthy (is_true a) <;> rcases hb : truthy (is_true b) <;>
    simp [truth_value, ha, hb]

/-- C7: each rewrite returns exactly the specified new tree, built from the
receiver operands a and b, which themselves stay the scope of the receiver;
nothing is mutated in the purely functional model. -/
theorem rewrites_build_specified_trees (a b : Operand) :
    demorgans_law_or a b
      = .Not (.ofExpr (.And (.ofExpr (.Not a)) (.ofExpr (.Not b)))) ∧
    demorgan_law_and a b
      = .Not (.ofExpr (.Or (.ofExpr (.Not a)) (.ofExpr (.Not b)))) ∧
    disjunction_convert a b = .Or (.ofExpr (.Not a)) b ∧
    conditional_convert a b
      = .And (.ofExpr (.Conditional a b)) (.ofExpr (.Conditional b a)) ∧
    Expr.scope (.Or a b) = [a, b] ∧
    Expr.scope (.And a b) = [a, b] ∧
    Expr.scope (.Conditional a b) = [a, b] ∧
    Expr.scope (.BiConditional a b) = [a, b] :=
  ⟨rfl, rfl, rfl, rfl, rfl, rfl, rfl, rfl⟩

/-- C8: every expression renders as its class name followed by the
parenthesized, comma-space-separated renderings of its scope elements, and
in particular And(True, False) renders exactly so. -/
theorem render_format :
    (∀ e : Expr, exprStr e
        = Expr.className e ++ "(" ++ strJoin (Expr.scope e) ++ ")") ∧
    exprStr (.And (.ofBool true) (.ofBool false)) = "And(True, False)" := by
  refine ⟨?_, rfl⟩
  intro e
  cases e <;> simp [exprStr, Expr.className, Expr.scope, strJoin,
    String.append_assoc]

/-- C9: on any tree over boolean leaves, truth_value returns a strict
boolean True or False, never any other value, since every branch of every
connective returns an explicit boolean. -/
theorem truth_value_always_bool (e : Expr) (_h : Expr.boolLeaves e = true) :
    ∃ b : Bool, truth_value e = .pbool b :=
  truth_value_pbool e

/-- Witness for C9 at And(True, False). -/
theorem truth_value_always_bool_witness :
    Expr.boolLeaves (.And (.ofBool true) (.ofBool false)) = true ∧
    ∃ b : Bool,
      truth_value (.And (.ofBool true) (.ofBool false)) = .pbool b :=
  ⟨rfl, truth_value_always_bool (.And (.ofBool true) (.ofBool false)) rfl⟩

/-- C10: for every operand x that is a boolean leaf or an expression over
boolean leaves, Not(Not(x)).double_negation() returns x itself, and the
resolved truth value of x equals Not(Not(x)).truth_value. -/
theorem double_negation_truth_preserving (x : Operand)
    (h : Operand.boolLeaves x = true) :
    double_negation (.ofExpr (.Not x)) = some x ∧
    is_true x = truth_value (.Not (.ofExpr (.Not x))) := by
  refine ⟨rfl, ?_⟩
  obtain ⟨b, hb⟩ := is_true_pbool x h
  simp [truth_value, is_true, hb, truthy]

/-- Witness for C10 at the leaf False. -/
theorem double_negation_truth_preserving_witness :
    Operand.boolLeaves (.ofBool false) = true ∧
    (double_negation (.ofExpr (.Not (.ofBool false))) = some (.ofBool false) ∧
     is_true (.ofBool false)
       = truth_value (.Not (.ofExpr (.Not (.ofBool false))))) :=
  ⟨rfl, double_negation_truth_preserving (.ofBool false) rfl⟩

end LogicExpr
